import Mathlib

/-!
Verification of the AlphaVantage CLI client (`av-getquote.py`).

The Python source is shallowly embedded: each dict payload becomes a typed
structure or an association list, exceptions become `Option`/failure flags,
and console output becomes explicit event lists.
-/

set_option autoImplicit false

/-! ## String helpers modelling Python primitives -/

/-- Prefix test on character lists (models `str.startswith` used to define
substring containment). -/
def lstPrefix : List Char → List Char → Bool
  | [], _ => true
  | _ :: _, [] => false
  | a :: as, b :: bs => a = b && lstPrefix as bs

/-- Infix test on character lists. -/
def lstInfix : List Char → List Char → Bool
  | pat, [] => pat.isEmpty
  | pat, c :: rest => lstPrefix pat (c :: rest) || lstInfix pat rest

/-- Models the Python `pat in s` substring test. -/
def containsSubstr (s pat : String) : Bool :=
  lstInfix pat.toList s.toList

/-- Models Python `str.lower()` (ASCII case mapping, which covers every
string the claims use). -/
def pyLower (s : String) : String :=
  ⟨s.data.map Char.toLower⟩

/-- Accumulator loop behind `pySplit`: `cur` holds the reversed current
word. -/
def wordsAux (cur : List Char) : List Char → List String
  | [] => if cur.isEmpty then [] else [String.mk cur.reverse]
  | c :: rest =>
    if c.isWhitespace then
      if cur.isEmpty then wordsAux [] rest
      else String.mk cur.reverse :: wordsAux [] rest
    else wordsAux (c :: cur) rest

/-- Models Python `str.split()` with no argument: split on whitespace runs,
discarding empty pieces. -/
def pySplit (s : String) : List String :=
  wordsAux [] s.data

/-- Accumulator loop behind `splitOnChar`. -/
def splitOnCharAux (sep : Char) (cur : List Char) : List Char → List String
  | [] => [String.mk cur.reverse]
  | c :: rest =>
    if c = sep then String.mk cur.reverse :: splitOnCharAux sep [] rest
    else splitOnCharAux sep (c :: cur) rest

/-- Models Python `str.split(sep)` for a one-character separator: empty
pieces are kept. -/
def splitOnChar (sep : Char) (s : String) : List String :=
  splitOnCharAux sep [] s.data

/-- Decimal digit-string parsing (the core of Python `int(s)`). -/
def parseNat (s : String) : Option Nat :=
  if s.data.isEmpty then none
  else if s.data.all Char.isDigit then
    some (s.data.foldl (fun n c => n * 10 + (c.toNat - 48)) 0)
  else none

/-! ## API Gateway (`_make_alpha_vantage_request`) -/

/-- A query request: the `function` selector plus the remaining query
parameters (`apikey`, `symbol`, `interval`, ...). -/
structure Request where
  function_name : String
  params : List (String × String)
  deriving DecidableEq

/-- The JSON body of an AlphaVantage response: an optional `"Information"`
member (the rate-limit channel) plus the endpoint-specific payload `α`. -/
structure AVJson (α : Type) where
  information : Option String
  payload : α
  deriving DecidableEq

/-- Outcome of `requests.get` as seen by the gateway: either a transport
exception (`requests.exceptions.RequestException`, message attached) or an
HTTP response with a status code and a JSON body. -/
inductive TransportResult (α : Type) where
  | failure (msg : String)
  | response (status : Nat) (body : AVJson α)
  deriving DecidableEq

/-- `response.raise_for_status()` raises exactly for 4xx and 5xx codes. -/
def raisesForStatus (status : Nat) : Bool :=
  400 ≤ status && status < 600

/-- The HTTP error message carried by the exception from
`raise_for_status` (modelled just as the status code rendered). -/
def httpErrorMsg (status : Nat) : String :=
  toString status ++ " Error"

/-- `_make_alpha_vantage_request`, after the transport call: returns the
parsed body, or `none` on transport error, HTTP error status, or a
rate-limit `"Information"` message; second component is the log lines
printed. -/
def make_alpha_vantage_request {α : Type} (r : TransportResult α) :
    Option (AVJson α) × List String :=
  match r with
  | .failure msg => (none, ["Error making API request: " ++ msg])
  | .response status body =>
    if raisesForStatus status then
      (none, ["Error making API request: " ++ httpErrorMsg status])
    else
      match body.information with
      | some info =>
        if containsSubstr (pyLower info) "rate limit" then
          (none, ["Alpha Vantage API Rate Limit Exceeded: " ++ info])
        else (some body, [])
      | none => (some body, [])

/-! ## Quote Accessor (`get_stock_price`) -/

/-- Payload of a `GLOBAL_QUOTE` response: the optional `"Global Quote"`
member, itself a string-to-string mapping. -/
abbrev GQPayload : Type := Option (List (String × String))

/-- The extraction step of `get_stock_price` applied to a gateway result:
`if data and "Global Quote" in data and "05. price" in data["Global Quote"]`. -/
def get_stock_price_from (data : Option (AVJson GQPayload)) : Option String :=
  match data with
  | some d =>
    match d.payload with
    | some gq =>
      match gq.lookup "05. price" with
      | some p => some p
      | none => none
    | none => none
  | none => none

example :
    get_stock_price_from
      (some ⟨none, some [("01. symbol", "IBM"), ("05. price", "123.45")]⟩) =
      some "123.45" := by decide

/-! ## News renderer (`display_market_news`) -/

/-- An article record of the news feed: each field is the result of
`article.get(key)`, i.e. `none` when the key is missing. -/
structure Article where
  title : Option String
  source : Option String
  time_published : Option String
  url : Option String
  deriving DecidableEq

/-- The news payload: optional `"feed"` member. -/
structure NewsData where
  feed : Option (List Article)
  deriving DecidableEq

/-- `article.get("title", "N/A")`. -/
def articleTitle (a : Article) : String :=
  a.title.getD "N/A"

/-- `title.lower().split()[:5]`: the dedup signature of a title. -/
def titleSig (a : Article) : List String :=
  (pySplit (pyLower (articleTitle a))).take 5

/-- One emitted table row: the clickable title markup, the source and the
publication time (missing fields default to `"N/A"`). -/
structure NewsRow where
  clickable_title : String
  source : String
  time_published : String
  deriving DecidableEq

/-- Builds a row as the loop body does. -/
def mkNewsRow (a : Article) : NewsRow :=
  ⟨"[link=" ++ a.url.getD "N/A" ++ "]" ++ articleTitle a ++ "[/link]",
   a.source.getD "N/A", a.time_published.getD "N/A"⟩

/-- The `for article in data["feed"]` loop, with `prev` the
`previous_title_words` variable (initially `[]`). -/
def newsRowsAux (prev : List String) : List Article → List NewsRow
  | [] => []
  | a :: rest =>
    if titleSig a = prev then newsRowsAux prev rest
    else mkNewsRow a :: newsRowsAux (titleSig a) rest

/-- What the news renderer prints: the table of rows, or the
"no market news" notice. -/
inductive NewsOut where
  | table (rows : List NewsRow)
  | noData
  deriving DecidableEq

/-- `display_market_news`: the `"feed" in data and data["feed"]` guard,
then the dedup loop starting from `previous_title_words = []`. -/
def display_market_news (data : NewsData) : NewsOut :=
  match data.feed with
  | some (a :: rest) => .table (newsRowsAux [] (a :: rest))
  | _ => .noData

/-- The dedup loop exactly as claimed: the signature of the previously
emitted record, `none` while no record has been emitted yet, and a record
is skipped only when its signature equals that of an emitted predecessor. -/
def claimNewsRows (prev : Option (List String)) : List Article → List NewsRow
  | [] => []
  | a :: rest =>
    if some (titleSig a) = prev then claimNewsRows prev rest
    else mkNewsRow a :: claimNewsRows (some (titleSig a)) rest

/-- The claimed renderer: as `display_market_news`, but skipping is measured
against the previously emitted record only. -/
def claim_display_market_news (data : NewsData) : NewsOut :=
  match data.feed with
  | some (a :: rest) => .table (claimNewsRows none (a :: rest))
  | _ => .noData

/-- The amended renderer: the reference signature starts as the empty word
list, so a leading record whose title has no words is also skipped. -/
def amended_display_market_news (data : NewsData) : NewsOut :=
  match data.feed with
  | some (a :: rest) => .table (claimNewsRows (some []) (a :: rest))
  | _ => .noData

/-- The three-record example feed of the claim. -/
def newsExample : NewsData :=
  ⟨some [⟨some "Fed Raises Interest Rates Again Today", none, none, none⟩,
         ⟨some "Fed Raises Interest Rates Again Now", none, none, none⟩,
         ⟨some "Markets React To Decision", none, none, none⟩]⟩

/-- A feed whose single record has an empty title: its signature is the
empty word list, equal to the initial `previous_title_words`. -/
def emptyTitleFeed : NewsData :=
  ⟨some [⟨some "", none, none, none⟩]⟩

/-! ## Movers renderer (`display_gainers_losers_table`) -/

/-- A mover record: an ordered mapping from field names to string values
(iteration order of `.keys()` is the order of this list). -/
abbrev Record : Type := List (String × String)

/-- The movers payload: the whole dict, mapping keys such as
`"top_gainers"` to sequences of records.  The empty list models the empty
(falsy) dict. -/
abbrev MoversDict : Type := List (String × List Record)

/-- `[rec[key] for key in headers]`: `none` models the `KeyError` raised
when a record lacks one of the headers. -/
def rowFor (headers : List String) (rec : Record) : Option (List String) :=
  match headers with
  | [] => some []
  | h :: hs =>
    match rec.lookup h with
    | none => none
    | some v => (rowFor hs rec).map (fun vs => v :: vs)

/-- The `for rec in sequence: table.add_row(...)` loop; `none` models a
`KeyError` escaping it. -/
def rowsFor (headers : List String) : List Record → Option (List (List String))
  | [] => some []
  | rec :: recs =>
    match rowFor headers rec with
    | none => none
    | some row => (rowsFor headers recs).map (fun rows => row :: rows)

/-- One console event emitted by the movers renderer. -/
inductive REvent where
  | table (title : String) (headers : List String) (rows : List (List String))
  | notice (msg : String)
  deriving DecidableEq

/-- One category section: events printed, and whether the section finished
without an exception (a `KeyError` aborts before its table is printed). -/
def sectionFor (d : MoversDict) (key title noDataMsg : String) :
    List REvent × Bool :=
  match d.lookup key with
  | some (r :: rs) =>
    let headers := r.map Prod.fst
    match rowsFor headers (r :: rs) with
    | some rows => ([.table title headers rows], true)
    | none => ([], false)
  | _ => ([.notice noDataMsg], true)

/-- `display_gainers_losers_table`: events printed before completion or
failure, paired with the completed-without-exception flag.  A `none` or
empty (falsy) dict prints the retrieval-error notice. -/
def display_gainers_losers_table (data : Option MoversDict) :
    List REvent × Bool :=
  match data with
  | some (kv :: kvs) =>
    let d := kv :: kvs
    let g := sectionFor d "top_gainers" "Top Gainers"
      "No top gainers data available."
    if g.2 then
      let l := sectionFor d "top_losers" "Top Losers"
        "No top losers data available."
      if l.2 then
        let m := sectionFor d "most_actively_traded" "Most Actively Traded"
          "No most actively traded data available."
        (g.1 ++ [.notice "\n"] ++ l.1 ++ m.1, m.2)
      else (g.1 ++ [.notice "\n"] ++ l.1, false)
    else (g.1, false)
  | _ => ([.notice "Error: Could not retrieve gainers/losers data."], true)

/-! ## Chart renderer (`plot_copper_price`) -/

/-- One entry of the commodity series; `none` fields model missing keys. -/
structure CItem where
  date : Option String
  value : Option String
  deriving DecidableEq

/-- The commodity payload: optional `"data"` member. -/
structure CopperData where
  data : Option (List CItem)
  deriving DecidableEq

/-- The comprehension filter `"value" in item and item["value"] != "."`. -/
def keepC (it : CItem) : Bool :=
  match it.value with
  | some v => v ≠ "."
  | none => false

/-- `datetime.strptime(s, "%Y-%m-%d")`: a year/month/day triple, `none`
when the string is not of that shape. -/
def parseDate (s : String) : Option (Nat × Nat × Nat) :=
  match splitOnChar '-' s with
  | [y, m, d] =>
    match parseNat y, parseNat m, parseNat d with
    | some yn, some mn, some dn =>
      if 1 ≤ mn ∧ mn ≤ 12 ∧ 1 ≤ dn ∧ dn ≤ 31 then some (yn, mn, dn) else none
    | _, _, _ => none
  | _ => none

/-- `float(s)` on the non-negative decimal strings of the series, as an
exact rational; `none` models `ValueError`. -/
def parseFloat (s : String) : Option ℚ :=
  match splitOnChar '.' s with
  | [w] => (parseNat w).map (fun wn => (wn : ℚ))
  | [w, f] =>
    match parseNat w, parseNat f with
    | some wn, some fn => some ((wn : ℚ) + (fn : ℚ) / ((10 : ℚ) ^ f.length))
    | _, _ => none
  | _ => none

/-- A failing map over a list: `none` as soon as `f` fails, modelling an
exception escaping a list comprehension. -/
def mapO {α β : Type} (f : α → Option β) : List α → Option (List β)
  | [] => some []
  | a :: l =>
    match f a with
    | none => none
    | some b => (mapO f l).map (fun bs => b :: bs)

/-- The `dates` comprehension: parse `item["date"]` of each kept entry. -/
def copperDates (items : List CItem) : Option (List (Nat × Nat × Nat)) :=
  mapO (fun it => it.date.bind parseDate) (items.filter keepC)

/-- The `prices` comprehension: parse `item["value"]` of each kept entry. -/
def copperPrices (items : List CItem) : Option (List ℚ) :=
  mapO (fun it => it.value.bind parseFloat) (items.filter keepC)

/-- The point sequence handed to `plt.plot` after both lists are reversed:
matplotlib pairs the two lists positionally. -/
def plotPoints (items : List CItem) : Option (List ((Nat × Nat × Nat) × ℚ)) :=
  match copperDates items, copperPrices items with
  | some ds, some ps => some (ds.reverse.zip ps.reverse)
  | _, _ => none

/-- Parsing one kept entry into a chart point. -/
def parsePoint (it : CItem) : Option ((Nat × Nat × Nat) × ℚ) :=
  (it.date.bind parseDate).bind fun dt =>
    (it.value.bind parseFloat).map fun p => (dt, p)

/-- What `plot_copper_price` does: plot the points, crash during a
comprehension, or print the no-data message when `"data"` is absent. -/
inductive CopperOut where
  | plot (points : List ((Nat × Nat × Nat) × ℚ))
  | err
  | noData
  deriving DecidableEq

/-- `plot_copper_price` with the `if "data" in data` guard. -/
def plot_copper_price (d : CopperData) : CopperOut :=
  match d.data with
  | some items =>
    match plotPoints items with
    | some pts => .plot pts
    | none => .err
  | none => .noData

/-- The three-entry example series of the claim. -/
def copperExample : List CItem :=
  [⟨some "2024-03-01", some "9.5"⟩,
   ⟨some "2024-02-01", some "."⟩,
   ⟨some "2024-01-01", some "9.0"⟩]

/-! ## Accessors with explicit program state

The module has no mutable globals: the only ambient data is the API key
constant and the remote service.  Both are placed in an explicit state
record that each accessor receives and returns, so that any hidden mutation
would have to show up in the returned state. -/

/-- The program state visible to the accessors: one fixed remote per
endpoint (a pure function from requests to transport outcomes) and the
configured API key. -/
structure ProgState where
  quote_remote : Request → TransportResult GQPayload
  movers_remote : Request → TransportResult MoversDict
  news_remote : Request → TransportResult NewsData
  copper_remote : Request → TransportResult CopperData
  apikey : String

/-- `get_stock_price(symbol)`: gateway call with the `GLOBAL_QUOTE`
selector, then price extraction; the state is returned unchanged. -/
def get_stock_priceS (s : ProgState) (symbol : String) :
    Option String × ProgState :=
  (get_stock_price_from
     (make_alpha_vantage_request
       (s.quote_remote ⟨"GLOBAL_QUOTE", [("apikey", s.apikey), ("symbol", symbol)]⟩)).1,
   s)

/-- `get_top_gainers_losers()`. -/
def get_top_gainers_losersS (s : ProgState) :
    Option (AVJson MoversDict) × ProgState :=
  ((make_alpha_vantage_request
      (s.movers_remote ⟨"TOP_GAINERS_LOSERS", [("apikey", s.apikey)]⟩)).1, s)

/-- `get_market_news()`. -/
def get_market_newsS (s : ProgState) :
    Option (AVJson NewsData) × ProgState :=
  ((make_alpha_vantage_request
      (s.news_remote ⟨"NEWS_SENTIMENT", [("apikey", s.apikey)]⟩)).1, s)

/-- `get_copper_price()`: fixed `interval=monthly` parameter. -/
def get_copper_priceS (s : ProgState) :
    Option (AVJson CopperData) × ProgState :=
  ((make_alpha_vantage_request
      (s.copper_remote ⟨"COPPER", [("apikey", s.apikey), ("interval", "monthly")]⟩)).1, s)

/-! ## Helper lemmas -/

theorem zip_reverse_of_length_eq {α β : Type} :
    ∀ (l₁ : List α) (l₂ : List β), l₁.length = l₂.length →
      l₁.reverse.zip l₂.reverse = (l₁.zip l₂).reverse := by
  intro l₁
  induction l₁ with
  | nil =>
    intro l₂ h
    cases l₂ with
    | nil => rfl
    | cons b bs => simp at h
  | cons a as ih =>
    intro l₂ h
    cases l₂ with
    | nil => simp at h
    | cons b bs =>
      simp only [List.length_cons, Nat.succ.injEq] at h
      simp only [List.reverse_cons, List.zip_cons_cons]
      rw [List.zip_append (by simp [h]), ih bs h]
      rfl

theorem mapO_length {α β : Type} (f : α → Option β) :
    ∀ (l : List α) (bs : List β), mapO f l = some bs → bs.length = l.length := by
  intro l
  induction l with
  | nil =>
    intro bs h
    simp only [mapO] at h
    cases h
    rfl
  | cons a as ih =>
    intro bs h
    simp only [mapO] at h
    cases hfa : f a with
    | none => rw [hfa] at h; cases h
    | some b =>
      rw [hfa] at h
      cases hrec : mapO f as with
      | none => rw [hrec] at h; cases h
      | some bs₀ =>
        rw [hrec] at h
        simp only [Option.map_some] at h
        cases h
        simp [ih bs₀ hrec]

theorem mapO_pair_some {α β γ : Type} (f : α → Option β) (g : α → Option γ) :
    ∀ (l : List α) (bs : List β) (cs : List γ),
      mapO f l = some bs → mapO g l = some cs →
      mapO (fun a => (f a).bind fun b => (g a).map fun c => (b, c)) l =
        some (bs.zip cs) := by
  intro l
  induction l with
  | nil =>
    intro bs cs hf hg
    simp only [mapO] at hf hg
    cases hf; cases hg; rfl
  | cons a as ih =>
    intro bs cs hf hg
    simp only [mapO] at hf hg ⊢
    cases hfa : f a with
    | none => rw [hfa] at hf; cases hf
    | some b =>
      rw [hfa] at hf
      cases hga : g a with
      | none => rw [hga] at hg; cases hg
      | some c =>
        rw [hga] at hg
        cases hfrec : mapO f as with
        | none => rw [hfrec] at hf; cases hf
        | some bs₀ =>
          cases hgrec : mapO g as with
          | none => rw [hgrec] at hg; cases hg
          | some cs₀ =>
            rw [hfrec] at hf
            rw [hgrec] at hg
            simp only [Option.map_some] at hf hg
            cases hf; cases hg
            simp only [hfa, hga, Option.bind_some, Option.map_some,
              ih bs₀ cs₀ hfrec hgrec]
            rfl

theorem mapO_pair_none_left {α β γ : Type} (f : α → Option β) (g : α → Option γ)
    (l : List α) (hf : mapO f l = none) :
    mapO (fun a => (f a).bind fun b => (g a).map fun c => (b, c)) l = none := by
  induction l with
  | nil =>
    simp only [mapO] at hf
    cases hf
  | cons a as ih =>
    simp only [mapO] at hf ⊢
    cases hfa : f a with
    | none => simp [hfa]
    | some b =>
      rw [hfa] at hf
      cases hfrec : mapO f as with
      | none =>
        simp only [Option.bind_some, hfa, ih hfrec]
        cases g a <;> simp
      | some bs₀ => rw [hfrec] at hf; simp at hf

theorem mapO_pair_none_right {α β γ : Type} (f : α → Option β) (g : α → Option γ)
    (l : List α) (hg : mapO g l = none) :
    mapO (fun a => (f a).bind fun b => (g a).map fun c => (b, c)) l = none := by
  induction l with
  | nil =>
    simp only [mapO] at hg
    cases hg
  | cons a as ih =>
    simp only [mapO] at hg ⊢
    cases hga : g a with
    | none => cases f a <;> simp [hga]
    | some c =>
      rw [hga] at hg
      cases hgrec : mapO g as with
      | none =>
        simp only [hga, ih hgrec]
        cases f a <;> simp
      | some cs₀ => rw [hgrec] at hg; simp at hg

/-! ## Claim theorems -/

/-- Claim C3: for every Gateway response whose JSON body has an
`"Information"` field containing the substring "rate limit"
(case-insensitively), the Gateway returns an empty result, whatever the
HTTP status of the response. -/
theorem gateway_rate_limit_empty {α : Type} (status : Nat) (body : AVJson α)
    (info : String) (hinfo : body.information = some info)
    (hrl : containsSubstr (pyLower info) "rate limit" = true) :
    (make_alpha_vantage_request (TransportResult.response status body)).1 =
      none := by
  unfold make_alpha_vantage_request
  by_cases h : raisesForStatus status = true
  · simp [h]
  · simp [h, hinfo, hrl]

/-- Witness for C3: a 200 response whose Information field reads
"Rate limit reached" yields the empty result. -/
theorem gateway_rate_limit_empty_witness :
    (make_alpha_vantage_request
      (TransportResult.response 200
        (⟨some "Rate limit reached", ()⟩ : AVJson Unit))).1 = none :=
  gateway_rate_limit_empty 200 _ "Rate limit reached" rfl (by decide)

/-- Claim C7: for every request in which the transport fails or the HTTP
status is outside the success range (a 4xx or 5xx code), the Gateway
logs a message and returns an empty result; no exception propagates (the
embedding is a total function). -/
theorem gateway_failure_empty {α : Type} (r : TransportResult α)
    (h : (∃ msg, r = TransportResult.failure msg) ∨
         ∃ s b, r = TransportResult.response s b ∧ 400 ≤ s ∧ s < 600) :
    (make_alpha_vantage_request r).1 = none ∧
      (make_alpha_vantage_request r).2 ≠ [] := by
  rcases h with ⟨msg, rfl⟩ | ⟨s, b, rfl, hs₁, hs₂⟩
  · exact ⟨rfl, by simp [make_alpha_vantage_request]⟩
  · have hraise : raisesForStatus s = true := by
      simp only [raisesForStatus, Bool.and_eq_true, decide_eq_true_eq]
      omega
    constructor
    · simp [make_alpha_vantage_request, hraise]
    · simp [make_alpha_vantage_request, hraise]

/-- Witness for C7: a transport failure and a 404 response both yield the
empty result with a log line. -/
theorem gateway_failure_empty_witness :
    ((make_alpha_vantage_request (TransportResult.failure (α := Unit) "boom")).1 =
        none ∧
      (make_alpha_vantage_request (TransportResult.failure (α := Unit) "boom")).2 ≠ []) ∧
    ((make_alpha_vantage_request
        (TransportResult.response 404 (⟨none, ()⟩ : AVJson Unit))).1 = none ∧
      (make_alpha_vantage_request
        (TransportResult.response 404 (⟨none, ()⟩ : AVJson Unit))).2 ≠ []) :=
  ⟨gateway_failure_empty _ (Or.inl ⟨"boom", rfl⟩),
   gateway_failure_empty _ (Or.inr ⟨404, ⟨none, ()⟩, rfl, by decide, by decide⟩)⟩

/-- Claim C4: `get_stock_price` returns exactly the nested
`Global Quote."05. price"` string when present, and the empty result on
every other Gateway result (empty result, missing outer object, missing
price key): the extraction is the composition of the three lookups. -/
theorem get_price_exact_or_empty (data : Option (AVJson GQPayload)) :
    get_stock_price_from data =
      data.bind fun d => d.payload.bind fun gq => gq.lookup "05. price" := by
  rcases data with _ | ⟨info, pl⟩
  · rfl
  · rcases pl with _ | gq
    · rfl
    · show get_stock_price_from (some ⟨info, some gq⟩) =
        (some gq).bind fun gq => gq.lookup "05. price"
      cases h : gq.lookup "05. price" with
      | none => simp [get_stock_price_from, h]
      | some p => simp [get_stock_price_from, h]

/-- Claim C8: each accessor, run twice against the same unchanged remote,
returns the same output, and returns the program state unchanged (there is
no hidden local state). -/
theorem accessors_stateless (s : ProgState) (symbol : String) :
    ((get_stock_priceS s symbol).2 = s ∧
      (get_stock_priceS ((get_stock_priceS s symbol).2) symbol).1 =
        (get_stock_priceS s symbol).1) ∧
    ((get_top_gainers_losersS s).2 = s ∧
      (get_top_gainers_losersS ((get_top_gainers_losersS s).2)).1 =
        (get_top_gainers_losersS s).1) ∧
    ((get_market_newsS s).2 = s ∧
      (get_market_newsS ((get_market_newsS s).2)).1 =
        (get_market_newsS s).1) ∧
    ((get_copper_priceS s).2 = s ∧
      (get_copper_priceS ((get_copper_priceS s).2)).1 =
        (get_copper_priceS s).1) :=
  ⟨⟨rfl, rfl⟩, ⟨rfl, rfl⟩, ⟨rfl, rfl⟩, ⟨rfl, rfl⟩⟩

/-- Claim C9: an entry with no `"value"` key is silently filtered out by
`plot_copper_price`: it never causes a lookup failure and contributes no
plotted point. -/
theorem copper_missing_value_skipped (pre post : List CItem) (it : CItem)
    (h : it.value = none) :
    plotPoints (pre ++ it :: post) = plotPoints (pre ++ post) := by
  have hk : keepC it = false := by simp [keepC, h]
  simp [plotPoints, copperDates, copperPrices, List.filter_append,
    List.filter_cons, hk]

/-- Witness for C9: a concrete valueless entry between two kept entries
changes nothing. -/
theorem copper_missing_value_skipped_witness :
    plotPoints [⟨some "2024-03-01", some "9.5"⟩, ⟨some "2024-02-01", none⟩,
      ⟨some "2024-01-01", some "9.0"⟩] =
    plotPoints [⟨some "2024-03-01", some "9.5"⟩, ⟨some "2024-01-01", some "9.0"⟩] :=
  copper_missing_value_skipped [⟨some "2024-03-01", some "9.5"⟩]
    [⟨some "2024-01-01", some "9.0"⟩] ⟨some "2024-02-01", none⟩ rfl

/-- Claim C2: the plotted point sequence is exactly the non-sentinel
entries, dates and values parsed pairwise with correspondence preserved,
in reversed (chronologically ascending) order; and the three-entry example
series charts exactly [(2024-01-01, 9.0), (2024-03-01, 9.5)]. -/
theorem copper_points_filter_reverse :
    (∀ items : List CItem,
        plotPoints items =
          (mapO parsePoint (items.filter keepC)).map List.reverse) ∧
    plot_copper_price ⟨some copperExample⟩ =
      CopperOut.plot [((2024, 1, 1), (9 : ℚ)), ((2024, 3, 1), (19 : ℚ) / 2)] := by
  constructor
  · intro items
    have hpp : parsePoint = fun a =>
        ((fun it : CItem => it.date.bind parseDate) a).bind fun b =>
          ((fun it : CItem => it.value.bind parseFloat) a).map fun c =>
            (b, c) := rfl
    unfold plotPoints copperDates copperPrices
    cases hd : mapO (fun it => it.date.bind parseDate) (items.filter keepC) with
    | none =>
      rw [hpp, mapO_pair_none_left _ _ _ hd]
      rfl
    | some ds =>
      cases hg : mapO (fun it => it.value.bind parseFloat)
          (items.filter keepC) with
      | none =>
        rw [hpp, mapO_pair_none_right _ _ _ hg]
        rfl
      | some ps =>
        rw [hpp, mapO_pair_some _ _ _ ds ps hd hg]
        have hlen : ds.length = ps.length := by
          rw [mapO_length _ _ ds hd, mapO_length _ _ ps hg]
        show some (ds.reverse.zip ps.reverse) =
          Option.map List.reverse (some (ds.zip ps))
        rw [zip_reverse_of_length_eq ds ps hlen]
        rfl
  · have e95 : parseFloat "9.5" = some ((19 : ℚ) / 2) := by
      have h1 : splitOnChar '.' "9.5" = ["9", "5"] := by decide
      have h2 : parseNat "9" = some 9 := by decide
      have h3 : parseNat "5" = some 5 := by decide
      have h4 : "5".length = 1 := rfl
      simp only [parseFloat, h1, h2, h3, h4]
      norm_num
    have e90 : parseFloat "9.0" = some (9 : ℚ) := by
      have h1 : splitOnChar '.' "9.0" = ["9", "0"] := by decide
      have h2 : parseNat "9" = some 9 := by decide
      have h3 : parseNat "0" = some 0 := by decide
      have h4 : "0".length = 1 := rfl
      simp only [parseFloat, h1, h2, h3, h4]
      norm_num
    have hfil : copperExample.filter keepC =
        [⟨some "2024-03-01", some "9.5"⟩, ⟨some "2024-01-01", some "9.0"⟩] := by
      decide
    have hd : copperDates copperExample = some [(2024, 3, 1), (2024, 1, 1)] := by
      decide
    have hp : copperPrices copperExample = some [(19 : ℚ) / 2, (9 : ℚ)] := by
      simp only [copperPrices, hfil, mapO, Option.some_bind', e95, e90,
        Option.map_some]
      rfl
    simp only [plot_copper_price, plotPoints, hd, hp]
    rfl

/-- Bridge between the loop with the initial `[]` signature and the
claim-style loop once a record has been emitted. -/
theorem claimNewsRows_some (p : List String) (l : List Article) :
    claimNewsRows (some p) l = newsRowsAux p l := by
  induction l generalizing p with
  | nil => rfl
  | cons a rest ih =>
    simp only [claimNewsRows, newsRowsAux, Option.some.injEq]
    by_cases h : titleSig a = p
    · simp [h, ih]
    · simp [h, ih]

/-- Counterexample to claim C1 as stated: a first record whose title has no
words (signature `[]`, the initial value of `previous_title_words`) is
skipped by the code although no record was emitted before it. -/
theorem news_dedup_counterexample :
    display_market_news emptyTitleFeed ≠
      claim_display_market_news emptyTitleFeed := by
  decide

/-- Claim C1 (amended): records are emitted in feed order, skipping exactly
those whose lowercase first-five-words signature equals the signature of
the immediately preceding emitted record, *where the reference signature is
the empty word list while no record has been emitted yet*; the three-record
example feed emits the first and third records and suppresses the second. -/
theorem news_dedup_last_emitted :
    (∀ data : NewsData,
        display_market_news data = amended_display_market_news data) ∧
    display_market_news newsExample =
      NewsOut.table
        [mkNewsRow ⟨some "Fed Raises Interest Rates Again Today",
           none, none, none⟩,
         mkNewsRow ⟨some "Markets React To Decision", none, none, none⟩] := by
  constructor
  · intro data
    rcases data with ⟨_ | l⟩
    · rfl
    · cases l with
      | nil => rfl
      | cons a rest =>
        simp only [display_market_news, amended_display_market_news,
          claimNewsRows_some]
  · decide

/-- Claim C10: the news renderer never fails on a missing field — a missing
title, source, time_published or url is rendered as the default string
"N/A" (a missing title also dedups under the signature of "N/A"), in
contrast to the movers row builder, which fails on a missing key. -/
theorem news_missing_fields_default (a : Article) :
    (a.title = none →
      mkNewsRow a = mkNewsRow ⟨some "N/A", a.source, a.time_published, a.url⟩ ∧
      titleSig a = ["n/a"]) ∧
    (a.source = none → (mkNewsRow a).source = "N/A") ∧
    (a.time_published = none → (mkNewsRow a).time_published = "N/A") ∧
    (a.url = none →
      mkNewsRow a = mkNewsRow ⟨a.title, a.source, a.time_published, some "N/A"⟩) ∧
    (∀ (rec : Record) (h : String) (hs : List String),
      rec.lookup h = none → rowFor (h :: hs) rec = none) := by
  refine ⟨?_, ?_, ?_, ?_, ?_⟩
  · intro ht
    constructor
    · simp [mkNewsRow, articleTitle, ht]
    · simp only [titleSig, articleTitle, ht, Option.getD_none]
      decide
  · intro hs
    simp [mkNewsRow, hs]
  · intro htp
    simp [mkNewsRow, htp]
  · intro hu
    simp [mkNewsRow, articleTitle, hu]
  · intro rec h hs hlook
    simp [rowFor, hlook]

/-- Witness for C10 at the all-missing article and at an empty movers
record. -/
theorem news_missing_fields_default_witness :
    (mkNewsRow ⟨none, none, none, none⟩ =
        mkNewsRow ⟨some "N/A", none, none, none⟩ ∧
      titleSig ⟨none, none, none, none⟩ = ["n/a"]) ∧
    (mkNewsRow ⟨none, none, none, none⟩).source = "N/A" ∧
    (mkNewsRow ⟨none, none, none, none⟩).time_published = "N/A" ∧
    mkNewsRow ⟨none, none, none, none⟩ =
      mkNewsRow ⟨none, none, none, some "N/A"⟩ ∧
    rowFor ["x"] ([] : Record) = none :=
  ⟨(news_missing_fields_default ⟨none, none, none, none⟩).1 rfl,
   (news_missing_fields_default ⟨none, none, none, none⟩).2.1 rfl,
   (news_missing_fields_default ⟨none, none, none, none⟩).2.2.1 rfl,
   (news_missing_fields_default ⟨none, none, none, none⟩).2.2.2.1 rfl,
   (news_missing_fields_default ⟨none, none, none, none⟩).2.2.2.2 [] "x" [] rfl⟩

/-- A row builds successfully when every header key is present, and is then
the in-order lookup of the headers. -/
theorem rowFor_all_some (rec : Record) :
    ∀ (headers : List String), (∀ h ∈ headers, (rec.lookup h).isSome = true) →
      rowFor headers rec =
        some (headers.map fun h => (rec.lookup h).getD "") := by
  intro headers
  induction headers with
  | nil => intro _; rfl
  | cons h hs ih =>
    intro hall
    obtain ⟨v, hv⟩ := Option.isSome_iff_exists.mp (hall h (by simp))
    simp only [rowFor, hv]
    rw [ih (fun h₀ hmem => hall h₀ (by simp [hmem]))]
    simp [hv]

/-- A row build fails as soon as some header key is missing. -/
theorem rowFor_missing (rec : Record) (headers : List String) (h : String)
    (hmem : h ∈ headers) (hnone : rec.lookup h = none) :
    rowFor headers rec = none := by
  induction headers with
  | nil => cases hmem
  | cons h₀ hs ih =>
    rcases List.mem_cons.mp hmem with rfl | hmem₀
    · simp [rowFor, hnone]
    · cases hl : rec.lookup h₀ with
      | none => simp [rowFor, hl]
      | some v => simp [rowFor, hl, ih hmem₀]

/-- All rows build when every record has every header key. -/
theorem rowsFor_all_some (headers : List String) :
    ∀ (recs : List Record),
      (∀ rec ∈ recs, ∀ h ∈ headers, (rec.lookup h).isSome = true) →
      rowsFor headers recs =
        some (recs.map fun rec => headers.map fun h => (rec.lookup h).getD "") := by
  intro recs
  induction recs with
  | nil => intro _; rfl
  | cons rec recs ih =>
    intro hall
    simp only [rowsFor, rowFor_all_some rec headers (hall rec (by simp))]
    rw [ih (fun r hr h hh => hall r (by simp [hr]) h hh)]
    rfl

/-- The row loop fails when some record lacks some header key. -/
theorem rowsFor_missing (headers : List String) (recs : List Record)
    (rec : Record) (h : String) (hrec : rec ∈ recs) (hmem : h ∈ headers)
    (hnone : rec.lookup h = none) :
    rowsFor headers recs = none := by
  induction recs with
  | nil => cases hrec
  | cons r rs ih =>
    rcases List.mem_cons.mp hrec with rfl | hrec₀
    · simp [rowsFor, rowFor_missing rec headers h hmem hnone]
    · cases hr : rowFor headers r with
      | none => simp [rowsFor, hr]
      | some row => simp [rowsFor, hr, ih hrec₀]

/-- A category whose sequence is absent or empty renders only its no-data
notice. -/
theorem sectionFor_no_data (d : MoversDict) (key t m : String)
    (h : d.lookup key = none ∨ d.lookup key = some []) :
    sectionFor d key t m = ([REvent.notice m], true) := by
  rcases h with h | h <;> simp [sectionFor, h]

/-- Every event a category section emits is either a table carrying the
section's own title or the section's own notice. -/
theorem sectionFor_events_shape (d : MoversDict) (key t m : String)
    (e : REvent) (he : e ∈ (sectionFor d key t m).1) :
    (∃ hs rows, e = REvent.table t hs rows) ∨ e = REvent.notice m := by
  cases hl : d.lookup key with
  | none =>
    have hsec : sectionFor d key t m = ([REvent.notice m], true) := by
      simp [sectionFor, hl]
    rw [hsec] at he
    simp at he
    exact Or.inr he
  | some l =>
    cases l with
    | nil =>
      have hsec : sectionFor d key t m = ([REvent.notice m], true) := by
        simp [sectionFor, hl]
      rw [hsec] at he
      simp at he
      exact Or.inr he
    | cons r rs =>
      cases hr : rowsFor (r.map Prod.fst) (r :: rs) with
      | none =>
        have hsec : sectionFor d key t m = ([], false) := by
          simp [sectionFor, hl, hr]
        rw [hsec] at he
        simp at he
      | some rows =>
        have hsec : sectionFor d key t m =
            ([REvent.table t (r.map Prod.fst) rows], true) := by
          simp [sectionFor, hl, hr]
        rw [hsec] at he
        simp at he
        exact Or.inl ⟨r.map Prod.fst, rows, he⟩

/-- No section ever emits a table titled differently from itself. -/
theorem table_notin_sectionFor (d : MoversDict) (key t m t' : String)
    (hs : List String) (rows : List (List String)) (hne : t' ≠ t) :
    REvent.table t' hs rows ∉ (sectionFor d key t m).1 := by
  intro hmem
  rcases sectionFor_events_shape d key t m _ hmem with ⟨hs', rows', he⟩ | he
  · injection he with h1 _ _
    exact hne h1
  · cases he

/-- The events printed by the movers renderer on a truthy dict, as a
function of the three sections. -/
theorem display_movers_events (kv : String × List Record) (kvs : MoversDict) :
    (display_gainers_losers_table (some (kv :: kvs))).1 =
      if (sectionFor (kv :: kvs) "top_gainers" "Top Gainers"
            "No top gainers data available.").2 then
        if (sectionFor (kv :: kvs) "top_losers" "Top Losers"
              "No top losers data available.").2 then
          (sectionFor (kv :: kvs) "top_gainers" "Top Gainers"
              "No top gainers data available.").1 ++
            [REvent.notice "\n"] ++
            (sectionFor (kv :: kvs) "top_losers" "Top Losers"
              "No top losers data available.").1 ++
            (sectionFor (kv :: kvs) "most_actively_traded"
              "Most Actively Traded"
              "No most actively traded data available.").1
        else
          (sectionFor (kv :: kvs) "top_gainers" "Top Gainers"
              "No top gainers data available.").1 ++
            [REvent.notice "\n"] ++
            (sectionFor (kv :: kvs) "top_losers" "Top Losers"
              "No top losers data available.").1
      else
        (sectionFor (kv :: kvs) "top_gainers" "Top Gainers"
          "No top gainers data available.").1 := by
  cases hG : (sectionFor (kv :: kvs) "top_gainers" "Top Gainers"
      "No top gainers data available.").2 <;>
    cases hL : (sectionFor (kv :: kvs) "top_losers" "Top Losers"
        "No top losers data available.").2 <;>
      simp [display_gainers_losers_table, hG, hL]

/-- Counterexample to claim C5 as stated: on the empty (falsy) movers dict
the renderer prints the retrieval-error notice instead of the per-category
notices, and when an earlier category's rendering fails, a later absent
category's notice is never reached. -/
theorem movers_no_data_counterexample :
    (List.lookup "top_gainers" ([] : MoversDict) = none ∧
      REvent.notice "No top gainers data available." ∉
        (display_gainers_losers_table (some ([] : MoversDict))).1) ∧
    (List.lookup "top_losers"
        ([("top_gainers", [[("t", "A")], []])] : MoversDict) = none ∧
      REvent.notice "No top losers data available." ∉
        (display_gainers_losers_table
          (some ([("top_gainers", [[("t", "A")], []])] : MoversDict))).1) := by
  decide

/-- Every printed movers event comes from one of the three sections or is
the separating newline. -/
theorem display_event_shape (kv : String × List Record) (kvs : MoversDict)
    (e : REvent)
    (he : e ∈ (display_gainers_losers_table (some (kv :: kvs))).1) :
    e ∈ (sectionFor (kv :: kvs) "top_gainers" "Top Gainers"
          "No top gainers data available.").1 ∨
    e ∈ (sectionFor (kv :: kvs) "top_losers" "Top Losers"
          "No top losers data available.").1 ∨
    e ∈ (sectionFor (kv :: kvs) "most_actively_traded" "Most Actively Traded"
          "No most actively traded data available.").1 ∨
    e = REvent.notice "\n" := by
  rw [display_movers_events] at he
  by_cases hG : (sectionFor (kv :: kvs) "top_gainers" "Top Gainers"
      "No top gainers data available.").2 = true
  · by_cases hL : (sectionFor (kv :: kvs) "top_losers" "Top Losers"
        "No top losers data available.").2 = true
    · simp [hG, hL, List.mem_append] at he
      tauto
    · simp [hG, hL, List.mem_append] at he
      tauto
  · simp [hG] at he
    tauto

/-- Gainers-section events are always printed. -/
theorem gainers_events_in_display (kv : String × List Record)
    (kvs : MoversDict) (e : REvent)
    (he : e ∈ (sectionFor (kv :: kvs) "top_gainers" "Top Gainers"
      "No top gainers data available.").1) :
    e ∈ (display_gainers_losers_table (some (kv :: kvs))).1 := by
  rw [display_movers_events]
  by_cases hG : (sectionFor (kv :: kvs) "top_gainers" "Top Gainers"
      "No top gainers data available.").2 = true
  · by_cases hL : (sectionFor (kv :: kvs) "top_losers" "Top Losers"
        "No top losers data available.").2 = true
    · simp [hG, hL, List.mem_append, he]
    · simp [hG, hL, List.mem_append, he]
  · simp [hG, he]

/-- Losers-section events are printed when the gainers section completes. -/
theorem losers_events_in_display (kv : String × List Record)
    (kvs : MoversDict) (e : REvent)
    (hGok : (sectionFor (kv :: kvs) "top_gainers" "Top Gainers"
      "No top gainers data available.").2 = true)
    (he : e ∈ (sectionFor (kv :: kvs) "top_losers" "Top Losers"
      "No top losers data available.").1) :
    e ∈ (display_gainers_losers_table (some (kv :: kvs))).1 := by
  rw [display_movers_events]
  by_cases hL : (sectionFor (kv :: kvs) "top_losers" "Top Losers"
      "No top losers data available.").2 = true
  · simp [hGok, hL, List.mem_append, he]
  · simp [hGok, hL, List.mem_append, he]

/-- Most-actively-traded events are printed when the first two sections
complete. -/
theorem actives_events_in_display (kv : String × List Record)
    (kvs : MoversDict) (e : REvent)
    (hGok : (sectionFor (kv :: kvs) "top_gainers" "Top Gainers"
      "No top gainers data available.").2 = true)
    (hLok : (sectionFor (kv :: kvs) "top_losers" "Top Losers"
      "No top losers data available.").2 = true)
    (he : e ∈ (sectionFor (kv :: kvs) "most_actively_traded"
      "Most Actively Traded" "No most actively traded data available.").1) :
    e ∈ (display_gainers_losers_table (some (kv :: kvs))).1 := by
  rw [display_movers_events]
  simp [hGok, hLok, List.mem_append, he]

/-- Claim C5 (amended): for every *truthy* (non-empty) movers payload, each
category whose sequence is absent or empty gets its no-data notice —
provided no earlier category's table rendering failed first — and no table
for that category is ever rendered. -/
theorem movers_no_data_notice (d : MoversDict) (hne : d ≠ []) :
    ((d.lookup "top_gainers" = none ∨ d.lookup "top_gainers" = some []) →
      REvent.notice "No top gainers data available." ∈
        (display_gainers_losers_table (some d)).1 ∧
      ∀ hs rows, REvent.table "Top Gainers" hs rows ∉
        (display_gainers_losers_table (some d)).1) ∧
    ((d.lookup "top_losers" = none ∨ d.lookup "top_losers" = some []) →
      ((sectionFor d "top_gainers" "Top Gainers"
          "No top gainers data available.").2 = true →
        REvent.notice "No top losers data available." ∈
          (display_gainers_losers_table (some d)).1) ∧
      ∀ hs rows, REvent.table "Top Losers" hs rows ∉
        (display_gainers_losers_table (some d)).1) ∧
    ((d.lookup "most_actively_traded" = none ∨
        d.lookup "most_actively_traded" = some []) →
      ((sectionFor d "top_gainers" "Top Gainers"
          "No top gainers data available.").2 = true →
       (sectionFor d "top_losers" "Top Losers"
          "No top losers data available.").2 = true →
        REvent.notice "No most actively traded data available." ∈
          (display_gainers_losers_table (some d)).1) ∧
      ∀ hs rows, REvent.table "Most Actively Traded" hs rows ∉
        (display_gainers_losers_table (some d)).1) := by
  cases d with
  | nil => exact absurd rfl hne
  | cons kv kvs =>
    refine ⟨?_, ?_, ?_⟩
    · intro hyp
      have hGsec := sectionFor_no_data (kv :: kvs) "top_gainers" "Top Gainers"
        "No top gainers data available." hyp
      constructor
      · exact gainers_events_in_display kv kvs _ (by rw [hGsec]; simp)
      · intro hs rows hmem
        rcases display_event_shape kv kvs _ hmem with hin | hin | hin | heq
        · rw [hGsec] at hin
          simp at hin
        · exact table_notin_sectionFor _ _ _ _ _ _ _ (by decide) hin
        · exact table_notin_sectionFor _ _ _ _ _ _ _ (by decide) hin
        · simp at heq
    · intro hyp
      have hLsec := sectionFor_no_data (kv :: kvs) "top_losers" "Top Losers"
        "No top losers data available." hyp
      constructor
      · intro hGok
        exact losers_events_in_display kv kvs _ hGok (by rw [hLsec]; simp)
      · intro hs rows hmem
        rcases display_event_shape kv kvs _ hmem with hin | hin | hin | heq
        · exact table_notin_sectionFor _ _ _ _ _ _ _ (by decide) hin
        · rw [hLsec] at hin
          simp at hin
        · exact table_notin_sectionFor _ _ _ _ _ _ _ (by decide) hin
        · simp at heq
    · intro hyp
      have hMsec := sectionFor_no_data (kv :: kvs) "most_actively_traded"
        "Most Actively Traded" "No most actively traded data available." hyp
      constructor
      · intro hGok hLok
        exact actives_events_in_display kv kvs _ hGok hLok (by rw [hMsec]; simp)
      · intro hs rows hmem
        rcases display_event_shape kv kvs _ hmem with hin | hin | hin | heq
        · exact table_notin_sectionFor _ _ _ _ _ _ _ (by decide) hin
        · exact table_notin_sectionFor _ _ _ _ _ _ _ (by decide) hin
        · rw [hMsec] at hin
          simp at hin
        · simp at heq

/-- Witness for the amended C5 at a one-key payload lacking all three
category keys: all three notices are printed. -/
theorem movers_no_data_notice_witness :
    REvent.notice "No top gainers data available." ∈
      (display_gainers_losers_table
        (some ([("meta", [])] : MoversDict))).1 ∧
    REvent.notice "No top losers data available." ∈
      (display_gainers_losers_table
        (some ([("meta", [])] : MoversDict))).1 ∧
    REvent.notice "No most actively traded data available." ∈
      (display_gainers_losers_table
        (some ([("meta", [])] : MoversDict))).1 :=
  ⟨((movers_no_data_notice [("meta", [])] (by decide)).1 (Or.inl rfl)).1,
   ((movers_no_data_notice [("meta", [])] (by decide)).2.1 (Or.inl rfl)).1
     (by decide),
   ((movers_no_data_notice [("meta", [])] (by decide)).2.2 (Or.inl rfl)).1
     (by decide) (by decide)⟩

/-- Claim C6: for a non-empty movers category, the column headers are the
key set of the first record and one row per record is emitted in original
order by looking up each header in each record; if some record lacks a
header key, the section aborts with a lookup failure instead of printing
its table. -/
theorem movers_headers_from_first (d : MoversDict) (key t m : String)
    (r : Record) (rs : List Record) (hl : d.lookup key = some (r :: rs)) :
    ((∀ rec ∈ r :: rs, ∀ h ∈ r.map Prod.fst, (rec.lookup h).isSome = true) →
      sectionFor d key t m =
        ([REvent.table t (r.map Prod.fst)
            ((r :: rs).map fun rec =>
              (r.map Prod.fst).map fun h => (rec.lookup h).getD "")], true)) ∧
    ((∃ rec ∈ r :: rs, ∃ h ∈ r.map Prod.fst, rec.lookup h = none) →
      sectionFor d key t m = ([], false)) := by
  constructor
  · intro hall
    simp [sectionFor, hl, rowsFor_all_some (r.map Prod.fst) (r :: rs) hall]
  · rintro ⟨rec, hrec, h, hh, hnone⟩
    simp [sectionFor, hl,
      rowsFor_missing (r.map Prod.fst) (r :: rs) rec h hrec hh hnone]

/-- Witness for C6: a uniform two-record category renders its table with
the first record's keys as headers; a ragged second record aborts the
section. -/
theorem movers_headers_from_first_witness :
    sectionFor [("top_gainers", [[("t", "A"), ("p", "1")],
        [("t", "B"), ("p", "2")]])] "top_gainers" "Top Gainers"
        "No top gainers data available." =
      ([REvent.table "Top Gainers" ["t", "p"] [["A", "1"], ["B", "2"]]],
        true) ∧
    sectionFor [("top_gainers", [[("t", "A"), ("p", "1")], [("t", "B")]])]
        "top_gainers" "Top Gainers" "No top gainers data available." =
      ([], false) := by
  constructor
  · exact (movers_headers_from_first
      [("top_gainers", [[("t", "A"), ("p", "1")], [("t", "B"), ("p", "2")]])]
      "top_gainers" "Top Gainers" "No top gainers data available."
      [("t", "A"), ("p", "1")] [[("t", "B"), ("p", "2")]] rfl).1 (by decide)
  · exact (movers_headers_from_first
      [("top_gainers", [[("t", "A"), ("p", "1")], [("t", "B")]])]
      "top_gainers" "Top Gainers" "No top gainers data available."
      [("t", "A"), ("p", "1")] [[("t", "B")]] rfl).2
      ⟨[("t", "B")], by decide, "p", by decide, rfl⟩
